import Mathlib

-- Shallow embedding of the AppScan Terraform provider adapter.
-- HTTP exchanges are modelled by passing the decoded response of each call
-- explicitly; the host framework's ResourceData is modelled as an explicit
-- state record that each operation transforms, returned together with the
-- optional error of the operation (mirroring Go's in-place mutation of `d`
-- followed by an error return).

namespace AppScan

-- The application resource's local Terraform state: the id plus the five
-- schema attributes (src/unnamed/part_001, resourceAppScanApplication).
-- A string attribute that is unset holds the zero value ""; the SDK's
-- GetOk reports a string attribute as set exactly when it is non-empty.
structure AppState where
  id : String
  name : String
  description : String
  asset_group_id : String
  business_unit_id : String
  business_impact : String
  deriving DecidableEq

-- One decoded element of the response's Items array for the application
-- read (Go: map[string]interface{} with string type assertions). A field
-- is `some v` exactly when the key is present in the JSON object with a
-- string value `v`; any absent or non-string field is `none`.
structure AppItem where
  itemId : Option String := none
  name : Option String := none
  description : Option String := none
  asset_group_id : Option String := none
  business_unit_id : Option String := none
  business_impact : Option String := none
  deriving DecidableEq

-- The errors the adapter can return; each constructor corresponds to one
-- fmt.Errorf site in the source, carrying the data interpolated there.
inductive AppError where
  | authFailed (status : Nat)
  | malformedToken
  | createFailed (status : Nat)
  | createNoId
  | readFailed (what : String) (status : Nat)
  | updateFailed (status : Nat)
  | deleteFailed (status : Nat)
  | notFound (entity : String) (nm : String)
  | ambiguousMatch (entity : String) (nm : String)
  deriving DecidableEq

-- A decoded response to the application-read GET: HTTP status plus the
-- decoded Items array (empty when the body decodes without Items).
structure ReadResponse where
  status : Nat
  items : List AppItem
  deriving DecidableEq

-- The field-update block of resourceAppScanApplicationRead: for each of
-- the five attributes, `if v, ok := app["..."].(string); ok { d.Set(...) }`.
def applyAppItem (s : AppState) (a : AppItem) : AppState :=
  let s1 := match a.name with
    | some v => { s with name := v }
    | none => s
  let s2 := match a.description with
    | some v => { s1 with description := v }
    | none => s1
  let s3 := match a.asset_group_id with
    | some v => { s2 with asset_group_id := v }
    | none => s2
  let s4 := match a.business_unit_id with
    | some v => { s3 with business_unit_id := v }
    | none => s3
  match a.business_impact with
    | some v => { s4 with business_impact := v }
    | none => s4

-- resourceAppScanApplicationRead (src/unnamed/part_001): 404 clears the
-- id and succeeds; any other non-200 status is an error; an empty Items
-- array clears the id and succeeds; otherwise Items[0] is applied.
def resourceAppScanApplicationRead (resp : ReadResponse) (s : AppState) :
    AppState × Option AppError :=
  if resp.status = 404 then ({ s with id := "" }, none)
  else if resp.status ≠ 200 then (s, some (.readFailed "application" resp.status))
  else
    match resp.items with
    | [] => ({ s with id := "" }, none)
    | app :: _ => (applyAppItem s app, none)

-- A decoded response to the create POST: HTTP status plus the Id field of
-- the body (`result["Id"].(string)`: `some v` iff present with a string
-- value, which may be empty).
structure CreateResponse where
  status : Nat
  idField : Option String
  deriving DecidableEq

-- The JSON payload of the create POST, as the list of key/value pairs the
-- Go map holds: Name, Description and AssetGroupId always; BusinessUnitId
-- only when GetOk reports it set (non-empty); BusinessImpact always.
def createPayload (s : AppState) : List (String × String) :=
  [("Name", s.name), ("Description", s.description), ("AssetGroupId", s.asset_group_id)]
    ++ (if s.business_unit_id ≠ "" then [("BusinessUnitId", s.business_unit_id)] else [])
    ++ [("BusinessImpact", s.business_impact)]

-- resourceAppScanApplicationCreate (src/unnamed/part_001): a status other
-- than 200/201 is an error; a missing or empty Id field is an error; on
-- success the id is stored with d.SetId and the read is invoked at once,
-- its outcome becoming the outcome of the create.
def resourceAppScanApplicationCreate (s : AppState) (cresp : CreateResponse)
    (rresp : ReadResponse) : AppState × Option AppError :=
  if cresp.status ≠ 201 ∧ cresp.status ≠ 200 then (s, some (.createFailed cresp.status))
  else
    match cresp.idField with
    | none => (s, some .createNoId)
    | some i =>
        if i = "" then (s, some .createNoId)
        else resourceAppScanApplicationRead rresp { s with id := i }

-- The JSON payload of the update PUT: Name and Description always,
-- BusinessUnitId when set, BusinessImpact always; AssetGroupId is never
-- put into the map (it is ForceNew, src/unnamed/part_001).
def updatePayload (s : AppState) : List (String × String) :=
  [("Name", s.name), ("Description", s.description)]
    ++ (if s.business_unit_id ≠ "" then [("BusinessUnitId", s.business_unit_id)] else [])
    ++ [("BusinessImpact", s.business_impact)]

-- resourceAppScanApplicationUpdate (src/unnamed/part_001): non-200 is an
-- error; on 200 the read is invoked and its outcome returned. The update
-- response body is never inspected, so only its status is modelled.
def resourceAppScanApplicationUpdate (s : AppState) (ustatus : Nat)
    (rresp : ReadResponse) : AppState × Option AppError :=
  if ustatus ≠ 200 then (s, some (.updateFailed ustatus))
  else resourceAppScanApplicationRead rresp s

-- resourceAppScanApplicationDelete (src/unnamed/part_001): any status
-- other than 204/200 is an error; on success the id is cleared.
def resourceAppScanApplicationDelete (s : AppState) (dstatus : Nat) :
    AppState × Option AppError :=
  if dstatus ≠ 204 ∧ dstatus ≠ 200 then (s, some (.deleteFailed dstatus))
  else ({ s with id := "" }, none)

-- One decoded element of the Items array for the asset-group and
-- business-unit data sources (Go: a typed struct with Id/Name/Description
-- string fields, so every field is always a string here).
structure AGItem where
  itemId : String
  name : String
  description : String
  deriving DecidableEq

-- A decoded response for the data-source GETs: status plus Items.
structure ItemsResponse where
  status : Nat
  items : List AGItem
  deriving DecidableEq

-- Local state of a single-item data source: id, name, description.
structure SingleLookupState where
  id : String
  name : String
  description : String
  deriving DecidableEq

-- dataSourceAssetGroupRead (src/internal/provider/asset_group_data_source.go):
-- non-200 is an error; zero items is a not-found error; more than one item
-- is an ambiguous-match error; exactly one item populates id/name/description.
def dataSourceAssetGroupRead (nm : String) (resp : ItemsResponse)
    (s : SingleLookupState) : SingleLookupState × Option AppError :=
  if resp.status ≠ 200 then (s, some (.readFailed "asset group" resp.status))
  else
    match resp.items with
    | [] => (s, some (.notFound "asset group" nm))
    | [a] => ({ id := a.itemId, name := a.name, description := a.description }, none)
    | _ :: _ :: _ => (s, some (.ambiguousMatch "asset group" nm))

-- dataSourceBusinessUnitRead (src/unnamed/part_002): same contract as the
-- single asset-group lookup, against the BusinessUnits endpoint.
def dataSourceBusinessUnitRead (nm : String) (resp : ItemsResponse)
    (s : SingleLookupState) : SingleLookupState × Option AppError :=
  if resp.status ≠ 200 then (s, some (.readFailed "BusinessUnit" resp.status))
  else
    match resp.items with
    | [] => (s, some (.notFound "BusinessUnit" nm))
    | [a] => ({ id := a.itemId, name := a.name, description := a.description }, none)
    | _ :: _ :: _ => (s, some (.ambiguousMatch "BusinessUnit" nm))

-- Local state of the asset-groups list data source: the synthetic id of
-- the list result plus the computed asset_groups collection.
structure AssetGroupsState where
  id : String
  asset_groups : List AGItem
  deriving DecidableEq

-- The filterQuery variable of dataSourceAssetGroupsRead: set from the
-- name exactly when GetOk reports the name as set (non-empty), else "".
def assetGroupsFilterQuery (nm : String) : String :=
  if nm ≠ "" then "Name eq \x27" ++ nm ++ "\x27" else ""

-- The $filter query parameter: query.Set is called iff filterQuery ≠ "".
def assetGroupsQueryParam (nm : String) : Option String :=
  if assetGroupsFilterQuery nm ≠ "" then some (assetGroupsFilterQuery nm) else none

-- dataSourceAssetGroupsRead (src/unnamed/part_002): non-200 is an error;
-- on 200 each item is mapped, in order, to an entry with its id, name and
-- description, the collection is stored, and the synthetic constant id
-- "asset_groups" is set.
def dataSourceAssetGroupsRead (resp : ItemsResponse) (s : AssetGroupsState) :
    AssetGroupsState × Option AppError :=
  if resp.status ≠ 200 then (s, some (.readFailed "asset groups" resp.status))
  else
    ({ id := "asset_groups",
       asset_groups := resp.items.map (fun ag =>
         { itemId := ag.itemId, name := ag.name, description := ag.description }) },
     none)

-- The authenticated transport client built by providerConfigure
-- (src/unnamed/part_002); the Go http.Client carries no adapter state and
-- is not modelled.
structure AppScanClient where
  apiEndpoint : String
  apiToken : String
  deriving DecidableEq

-- A decoded response to the ApiKeyLogin POST: status plus the Token field
-- of the decoded body ("" when the field is absent).
structure LoginResponse where
  status : Nat
  token : String
  deriving DecidableEq

-- The JSON payload of the login POST.
def loginPayload (keyId keySecret : String) : List (String × String) :=
  [("KeyId", keyId), ("KeySecret", keySecret)]

-- providerConfigure (src/unnamed/part_002): non-200 is an authentication
-- error; an empty decoded Token is a malformed-response error; otherwise
-- the client holds the configured endpoint and the returned token.
def providerConfigure (endpoint keyId keySecret : String) (resp : LoginResponse) :
    Except AppError AppScanClient :=
  if resp.status ≠ 200 then .error (.authFailed resp.status)
  else if resp.token = "" then .error .malformedToken
  else .ok { apiEndpoint := endpoint, apiToken := resp.token }

-- The allowed values of business_impact, from the ValidateFunc
-- validation.StringInSlice(..., false) in src/unnamed/part_001.
def businessImpactAllowed : List String :=
  ["Unspecified", "Low", "Medium", "High", "Critical"]

-- The schema Default of business_impact in src/unnamed/part_001.
def businessImpactDefault : String := "Unspecified"

-- The SDK's Default semantics for the business_impact attribute: the
-- configured value when present, the schema Default when omitted.
def applyBusinessImpactDefault (config : Option String) : String :=
  config.getD businessImpactDefault

-- The ValidateFunc of business_impact: StringInSlice with ignoreCase
-- false accepts exactly the members of the allowed list.
def validateBusinessImpact (v : String) : Bool :=
  businessImpactAllowed.contains v

-- The kinds of data source implemented in the repository.
inductive DataSourceKind where
  | assetGroupsList
  | assetGroupSingle
  | businessUnitSingle
  deriving DecidableEq

-- The DataSourcesMap of Provider() (src/unnamed/part_002 and src/main.go,
-- identical): only the asset-groups list and the single asset-group
-- lookup are registered; dataSourceBusinessUnit is implemented in
-- src/unnamed/part_002 but never added to this map.
def providerDataSourcesMap : List (String × DataSourceKind) :=
  [("appscan_asset_groups", DataSourceKind.assetGroupsList),
   ("appscan_asset_group", DataSourceKind.assetGroupSingle)]

-- The ResourcesMap of Provider().
def providerResourcesMap : List String := ["appscan_application"]

-- Theorems ------------------------------------------------------------

-- The field-update block applies exactly the present fields: each
-- attribute becomes the item's field when present and keeps its previous
-- value when absent.
theorem applyAppItem_eq (s : AppState) (a : AppItem) :
    applyAppItem s a =
      { s with
        name := a.name.getD s.name,
        description := a.description.getD s.description,
        asset_group_id := a.asset_group_id.getD s.asset_group_id,
        business_unit_id := a.business_unit_id.getD s.business_unit_id,
        business_impact := a.business_impact.getD s.business_impact } := by
  rcases a with ⟨i, n, d, ag, bu, bi⟩
  cases n <;> cases d <;> cases ag <;> cases bu <;> cases bi <;> rfl

/-- C1: an Application Read with a non-empty local id clears the identity
and succeeds on a 404 status or on a 200 status with an empty decoded
Items array; fails with the read error on any other non-200 status; and on
200 with at least one item updates name, description, asset_group_id,
business_unit_id and business_impact from exactly the string fields
present in the first item, leaving each absent field unchanged. -/
theorem application_read_spec (s : AppState) (resp : ReadResponse) (h : s.id ≠ "") :
    (resp.status = 404 →
      resourceAppScanApplicationRead resp s = ({ s with id := "" }, none)) ∧
    (resp.status = 200 → resp.items = [] →
      resourceAppScanApplicationRead resp s = ({ s with id := "" }, none)) ∧
    (resp.status ≠ 404 → resp.status ≠ 200 →
      resourceAppScanApplicationRead resp s =
        (s, some (AppError.readFailed "application" resp.status))) ∧
    (∀ a rest, resp.status = 200 → resp.items = a :: rest →
      resourceAppScanApplicationRead resp s =
        ({ s with
            name := a.name.getD s.name,
            description := a.description.getD s.description,
            asset_group_id := a.asset_group_id.getD s.asset_group_id,
            business_unit_id := a.business_unit_id.getD s.business_unit_id,
            business_impact := a.business_impact.getD s.business_impact }, none)) := by
  refine ⟨?_, ?_, ?_, ?_⟩
  · intro h404
    simp [resourceAppScanApplicationRead, h404]
  · intro h200 hitems
    simp [resourceAppScanApplicationRead, h200, hitems]
  · intro h404 h200
    simp [resourceAppScanApplicationRead, h404, h200]
  · intro a rest h200 hitems
    simp [resourceAppScanApplicationRead, h200, hitems, applyAppItem_eq]

/-- C1 witness: at a concrete state with id "123", a 404 response clears
the identity and returns success. -/
theorem application_read_spec_witness :
    (AppState.mk "123" "App1" "desc" "AG1" "" "Unspecified").id ≠ "" ∧
    resourceAppScanApplicationRead (ReadResponse.mk 404 [])
        (AppState.mk "123" "App1" "desc" "AG1" "" "Unspecified") =
      (AppState.mk "" "App1" "desc" "AG1" "" "Unspecified", none) :=
  ⟨by decide,
   (application_read_spec (AppState.mk "123" "App1" "desc" "AG1" "" "Unspecified")
     (ReadResponse.mk 404 []) (by decide)).1 rfl⟩

/-- C10: an Application Read with a 200 response holding two or more items
succeeds, populates local state exclusively from the first item (the
result is the one a singleton response with that item would give), returns
no ambiguity error, and never inspects the first item's Id field, in
particular never comparing it to the locally stored id. -/
theorem application_read_multi_items (s : AppState) (a b : AppItem)
    (rest : List AppItem) :
    resourceAppScanApplicationRead (ReadResponse.mk 200 (a :: b :: rest)) s =
      resourceAppScanApplicationRead (ReadResponse.mk 200 [a]) s ∧
    (resourceAppScanApplicationRead (ReadResponse.mk 200 (a :: b :: rest)) s).2 = none ∧
    (∀ i : Option String,
      resourceAppScanApplicationRead
          (ReadResponse.mk 200 ({ a with itemId := i } :: b :: rest)) s =
        resourceAppScanApplicationRead (ReadResponse.mk 200 (a :: b :: rest)) s) := by
  refine ⟨rfl, rfl, ?_⟩
  intro i
  simp [resourceAppScanApplicationRead, applyAppItem_eq]

/-- C2: the create payload carries Name, Description, AssetGroupId and
BusinessImpact always (BusinessImpact defaulting to "Unspecified" when the
attribute is omitted) and BusinessUnitId exactly when business_unit_id is
set; Create succeeds only on status 200 or 201, any other status or a
missing or empty Id field yields an error with the local state (hence the
id) unchanged; and on success the local id becomes the returned Id and the
Read is invoked immediately, its outcome becoming the Create's outcome. -/
theorem application_create_spec (s : AppState) (cresp : CreateResponse)
    (rresp : ReadResponse) :
    (("Name", s.name) ∈ createPayload s ∧
     ("Description", s.description) ∈ createPayload s ∧
     ("AssetGroupId", s.asset_group_id) ∈ createPayload s ∧
     ("BusinessImpact", s.business_impact) ∈ createPayload s ∧
     ((∃ v, ("BusinessUnitId", v) ∈ createPayload s) ↔ s.business_unit_id ≠ "") ∧
     applyBusinessImpactDefault none = "Unspecified") ∧
    (cresp.status ≠ 200 ∧ cresp.status ≠ 201 →
      resourceAppScanApplicationCreate s cresp rresp =
        (s, some (AppError.createFailed cresp.status))) ∧
    ((cresp.status = 200 ∨ cresp.status = 201) →
      (cresp.idField = none ∨ cresp.idField = some "" →
        resourceAppScanApplicationCreate s cresp rresp = (s, some AppError.createNoId)) ∧
      (∀ i, cresp.idField = some i → i ≠ "" →
        resourceAppScanApplicationCreate s cresp rresp =
          resourceAppScanApplicationRead rresp { s with id := i })) := by
  refine ⟨⟨?_, ?_, ?_, ?_, ?_, rfl⟩, ?_, ?_⟩
  · simp [createPayload]
  · simp [createPayload]
  · simp [createPayload]
  · simp [createPayload]
  · by_cases hb : s.business_unit_id = "" <;>
      simp [createPayload, hb]
  · intro hst
    simp [resourceAppScanApplicationCreate, hst.1, hst.2]
  · intro hst
    have hok : ¬(cresp.status ≠ 201 ∧ cresp.status ≠ 200) := by
      rcases hst with h | h <;> simp [h]
    constructor
    · intro hid
      rcases hid with h | h <;>
        simp [resourceAppScanApplicationCreate, hok, h]
    · intro i hid hne
      simp [resourceAppScanApplicationCreate, hok, hid, hne]

/-- C2 witness: at a concrete state, a 500 create response fails with the
create error and leaves the state unchanged; at the same state the payload
contains the Name pair. -/
theorem application_create_spec_witness :
    ((500 : Nat) ≠ 200 ∧ (500 : Nat) ≠ 201) ∧
    resourceAppScanApplicationCreate
        (AppState.mk "" "App1" "desc" "AG1" "" "Unspecified")
        (CreateResponse.mk 500 none) (ReadResponse.mk 200 []) =
      (AppState.mk "" "App1" "desc" "AG1" "" "Unspecified",
       some (AppError.createFailed 500)) ∧
    ("Name", "App1") ∈ createPayload (AppState.mk "" "App1" "desc" "AG1" "" "Unspecified") :=
  ⟨by decide,
   (application_create_spec (AppState.mk "" "App1" "desc" "AG1" "" "Unspecified")
       (CreateResponse.mk 500 none) (ReadResponse.mk 200 [])).2.1 (by decide),
   (application_create_spec (AppState.mk "" "App1" "desc" "AG1" "" "Unspecified")
       (CreateResponse.mk 500 none) (ReadResponse.mk 200 [])).1.1⟩

/-- C3: the update payload carries only keys from the mutable subset Name,
Description, BusinessUnitId (present exactly when business_unit_id is set)
and BusinessImpact, and never AssetGroupId; a non-200 status fails with
the update error leaving state unchanged; a 200 status is followed by the
Read, whose outcome becomes the Update's outcome; and whenever the read
response's first item echoes the stored asset_group_id (or omits the
field), the locally stored asset_group_id after Update equals its value
before Update. -/
theorem application_update_spec (s : AppState) (ustatus : Nat)
    (rresp : ReadResponse) :
    ((∀ v, ("AssetGroupId", v) ∉ updatePayload s) ∧
     ("Name", s.name) ∈ updatePayload s ∧
     ("Description", s.description) ∈ updatePayload s ∧
     ("BusinessImpact", s.business_impact) ∈ updatePayload s ∧
     ((∃ v, ("BusinessUnitId", v) ∈ updatePayload s) ↔ s.business_unit_id ≠ "") ∧
     (∀ k v, (k, v) ∈ updatePayload s →
        k = "Name" ∨ k = "Description" ∨ k = "BusinessUnitId" ∨ k = "BusinessImpact")) ∧
    (ustatus ≠ 200 →
      resourceAppScanApplicationUpdate s ustatus rresp =
        (s, some (AppError.updateFailed ustatus))) ∧
    (ustatus = 200 →
      resourceAppScanApplicationUpdate s ustatus rresp =
        resourceAppScanApplicationRead rresp s) ∧
    ((∀ a rest, rresp.items = a :: rest →
        a.asset_group_id = none ∨ a.asset_group_id = some s.asset_group_id) →
      (resourceAppScanApplicationUpdate s ustatus rresp).1.asset_group_id =
        s.asset_group_id) := by
  refine ⟨⟨?_, ?_, ?_, ?_, ?_, ?_⟩, ?_, ?_, ?_⟩
  · intro v
    by_cases hb : s.business_unit_id = "" <;>
      simp [updatePayload, hb]
  · simp [updatePayload]
  · simp [updatePayload]
  · simp [updatePayload]
  · by_cases hb : s.business_unit_id = "" <;>
      simp [updatePayload, hb]
  · intro k v hkv
    by_cases hb : s.business_unit_id = "" <;>
      simp [updatePayload, hb] at hkv <;> tauto
  · intro hne
    simp [resourceAppScanApplicationUpdate, hne]
  · intro h200
    simp [resourceAppScanApplicationUpdate, h200]
  · intro hecho
    by_cases hu : ustatus = 200
    · rw [resourceAppScanApplicationUpdate, if_neg (by simp [hu])]
      by_cases h404 : rresp.status = 404
      · simp [resourceAppScanApplicationRead, h404]
      · by_cases h200 : rresp.status = 200
        · rcases hitems : rresp.items with _ | ⟨a, rest⟩
          · simp [resourceAppScanApplicationRead, h404, h200, hitems]
          · rcases hecho a rest hitems with hag | hag <;>
              simp [resourceAppScanApplicationRead, h404, h200, hitems,
                applyAppItem_eq, hag]
        · simp [resourceAppScanApplicationRead, h404, h200]
    · simp [resourceAppScanApplicationUpdate, hu]

/-- C3 witness: at a concrete state, a 200 update followed by a read whose
single item echoes the stored asset_group_id leaves asset_group_id
unchanged; and no AssetGroupId pair is in the concrete update payload. -/
theorem application_update_spec_witness :
    (resourceAppScanApplicationUpdate
        (AppState.mk "123" "App1" "desc" "AG1" "" "Unspecified") 200
        (ReadResponse.mk 200
          [AppItem.mk none (some "App2") none (some "AG1") none none])).1.asset_group_id
      = "AG1" ∧
    ("AssetGroupId", "AG1") ∉
      updatePayload (AppState.mk "123" "App1" "desc" "AG1" "" "Unspecified") :=
  ⟨(application_update_spec (AppState.mk "123" "App1" "desc" "AG1" "" "Unspecified")
      200 (ReadResponse.mk 200
        [AppItem.mk none (some "App2") none (some "AG1") none none])).2.2.2
      (by intro a rest h; simp at h; rw [← h.1]; right; rfl),
   (application_update_spec (AppState.mk "123" "App1" "desc" "AG1" "" "Unspecified")
      200 (ReadResponse.mk 200
        [AppItem.mk none (some "App2") none (some "AG1") none none])).1.1 "AG1"⟩

/-- C4: for both single-item data-source lookups (asset group and business
unit), under a 200 response: an empty decoded Items array yields the
not-found error, two or more items yield the ambiguous-match error, and
exactly one item succeeds and sets the local id, name and description to
that item's Id, Name and Description. -/
theorem single_lookup_spec (nm : String) (resp : ItemsResponse)
    (sa sb : SingleLookupState) (h : resp.status = 200) :
    (resp.items = [] →
      dataSourceAssetGroupRead nm resp sa =
        (sa, some (AppError.notFound "asset group" nm)) ∧
      dataSourceBusinessUnitRead nm resp sb =
        (sb, some (AppError.notFound "BusinessUnit" nm))) ∧
    (∀ a b rest, resp.items = a :: b :: rest →
      dataSourceAssetGroupRead nm resp sa =
        (sa, some (AppError.ambiguousMatch "asset group" nm)) ∧
      dataSourceBusinessUnitRead nm resp sb =
        (sb, some (AppError.ambiguousMatch "BusinessUnit" nm))) ∧
    (∀ a, resp.items = [a] →
      dataSourceAssetGroupRead nm resp sa =
        (SingleLookupState.mk a.itemId a.name a.description, none) ∧
      dataSourceBusinessUnitRead nm resp sb =
        (SingleLookupState.mk a.itemId a.name a.description, none)) := by
  refine ⟨?_, ?_, ?_⟩
  · intro hitems
    constructor <;>
      simp [dataSourceAssetGroupRead, dataSourceBusinessUnitRead, h, hitems]
  · intro a b rest hitems
    constructor <;>
      simp [dataSourceAssetGroupRead, dataSourceBusinessUnitRead, h, hitems]
  · intro a hitems
    constructor <;>
      simp [dataSourceAssetGroupRead, dataSourceBusinessUnitRead, h, hitems]

/-- C4 witness: at a concrete 200 response with exactly one item, both
lookups populate id/name/description from that item. -/
theorem single_lookup_spec_witness :
    (200 : Nat) = 200 ∧
    dataSourceAssetGroupRead "G"
        (ItemsResponse.mk 200 [AGItem.mk "7" "G" "d"])
        (SingleLookupState.mk "" "" "") =
      (SingleLookupState.mk "7" "G" "d", none) ∧
    dataSourceBusinessUnitRead "G"
        (ItemsResponse.mk 200 [AGItem.mk "7" "G" "d"])
        (SingleLookupState.mk "" "" "") =
      (SingleLookupState.mk "7" "G" "d", none) :=
  ⟨rfl,
   ((single_lookup_spec "G" (ItemsResponse.mk 200 [AGItem.mk "7" "G" "d"])
       (SingleLookupState.mk "" "" "") (SingleLookupState.mk "" "" "")
       rfl).2.2 (AGItem.mk "7" "G" "d") rfl).1,
   ((single_lookup_spec "G" (ItemsResponse.mk 200 [AGItem.mk "7" "G" "d"])
       (SingleLookupState.mk "" "" "") (SingleLookupState.mk "" "" "")
       rfl).2.2 (AGItem.mk "7" "G" "d") rfl).2⟩

/-- C5: providerConfigure fails with the authentication error on any
non-200 status, fails with the malformed-response error on a 200 status
whose decoded Token is empty, and whenever it returns a client, that
client's endpoint is the configured endpoint and its token is the
response's non-empty Token — it never returns a client with an empty
token. -/
theorem provider_configure_spec (endpoint keyId keySecret : String)
    (resp : LoginResponse) :
    (resp.status ≠ 200 →
      providerConfigure endpoint keyId keySecret resp =
        Except.error (AppError.authFailed resp.status)) ∧
    (resp.status = 200 → resp.token = "" →
      providerConfigure endpoint keyId keySecret resp =
        Except.error AppError.malformedToken) ∧
    (∀ c, providerConfigure endpoint keyId keySecret resp = Except.ok c →
      c.apiEndpoint = endpoint ∧ c.apiToken = resp.token ∧ c.apiToken ≠ "") := by
  refine ⟨?_, ?_, ?_⟩
  · intro hne
    simp [providerConfigure, hne]
  · intro h200 htok
    simp [providerConfigure, h200, htok]
  · intro c hc
    by_cases hst : resp.status = 200
    · by_cases htok : resp.token = ""
      · simp [providerConfigure, hst, htok] at hc
      · simp [providerConfigure, hst, htok] at hc
        rw [← hc]
        exact ⟨rfl, rfl, htok⟩
    · simp [providerConfigure, hst] at hc

/-- C5 witness: at concrete inputs, a 200 response with token "tok" yields
a client bound to the configured endpoint with that non-empty token. -/
theorem provider_configure_spec_witness :
    providerConfigure "https://cloud.appscan.com/" "k" "s"
        (LoginResponse.mk 200 "tok") =
      Except.ok (AppScanClient.mk "https://cloud.appscan.com/" "tok") ∧
    ("tok" : String) ≠ "" :=
  ⟨rfl,
   ((provider_configure_spec "https://cloud.appscan.com/" "k" "s"
       (LoginResponse.mk 200 "tok")).2.2
     (AppScanClient.mk "https://cloud.appscan.com/" "tok") rfl).2.2⟩

/-- C6: business_impact defaults to "Unspecified" when omitted from the
configuration, and its validation function accepts a value exactly when it
is one of Unspecified, Low, Medium, High, Critical — every value outside
that set is rejected. -/
theorem business_impact_spec :
    applyBusinessImpactDefault none = "Unspecified" ∧
    (∀ v : String, validateBusinessImpact v = true ↔
      (v = "Unspecified" ∨ v = "Low" ∨ v = "Medium" ∨ v = "High" ∨ v = "Critical")) := by
  constructor
  · rfl
  · intro v
    simp [validateBusinessImpact, businessImpactAllowed]

/-- C6 witness: the value "Bogus" is rejected and "High" is accepted. -/
theorem business_impact_spec_witness :
    validateBusinessImpact "Bogus" = false ∧ validateBusinessImpact "High" = true := by
  constructor
  · cases hb : validateBusinessImpact "Bogus"
    · rfl
    · exact absurd ((business_impact_spec.2 "Bogus").mp hb) (by decide)
  · exact (business_impact_spec.2 "High").mpr (by tauto)

/-- C7: the asset-groups list request carries a $filter parameter exactly
when a name is configured (non-empty); a non-200 status fails with the
read error leaving state unchanged; a 200 response succeeds, sets the
constant identity "asset_groups", and yields a collection of the same
length and order as the decoded Items array whose entries take id, name
and description from the corresponding item — in particular an empty Items
array yields an empty collection and success. -/
theorem asset_groups_list_spec (nm : String) (resp : ItemsResponse)
    (s : AssetGroupsState) :
    ((assetGroupsQueryParam nm).isSome ↔ nm ≠ "") ∧
    (resp.status ≠ 200 →
      dataSourceAssetGroupsRead resp s =
        (s, some (AppError.readFailed "asset groups" resp.status))) ∧
    (resp.status = 200 →
      (dataSourceAssetGroupsRead resp s).2 = none ∧
      (dataSourceAssetGroupsRead resp s).1.id = "asset_groups" ∧
      (dataSourceAssetGroupsRead resp s).1.asset_groups.length = resp.items.length ∧
      (∀ i : Nat,
        ((dataSourceAssetGroupsRead resp s).1.asset_groups.get? i).map
            (fun g => (g.itemId, g.name, g.description)) =
          (resp.items.get? i).map (fun a => (a.itemId, a.name, a.description))) ∧
      (resp.items = [] → (dataSourceAssetGroupsRead resp s).1.asset_groups = [])) := by
  refine ⟨?_, ?_, ?_⟩
  · by_cases hn : nm = ""
    · simp [assetGroupsQueryParam, assetGroupsFilterQuery, hn]
    · simp [assetGroupsQueryParam, assetGroupsFilterQuery, hn]
      intro hc
      have hl := congrArg String.length hc
      rw [String.length_append, String.length_append] at hl
      have h1 : ("Name eq \x27" : String).length = 9 := by decide
      have h2 : ("\x27" : String).length = 1 := by decide
      have h3 : ("" : String).length = 0 := by decide
      omega
  · intro hne
    simp [dataSourceAssetGroupsRead, hne]
  · intro h200
    refine ⟨?_, ?_, ?_, ?_, ?_⟩
    · simp [dataSourceAssetGroupsRead, h200]
    · simp [dataSourceAssetGroupsRead, h200]
    · simp [dataSourceAssetGroupsRead, h200]
    · intro i
      simp [dataSourceAssetGroupsRead, h200, List.get?_map]
    · intro hitems
      simp [dataSourceAssetGroupsRead, h200, hitems]

/-- C7 witness: at a concrete 200 response with one item, the read
succeeds, sets the identity "asset_groups" and maps the item into the
collection; with an empty name no $filter parameter is produced. -/
theorem asset_groups_list_spec_witness :
    dataSourceAssetGroupsRead (ItemsResponse.mk 200 [AGItem.mk "1" "n" "d"])
        (AssetGroupsState.mk "" []) =
      (AssetGroupsState.mk "asset_groups" [AGItem.mk "1" "n" "d"], none) ∧
    assetGroupsQueryParam "" = none ∧
    (assetGroupsQueryParam "x").isSome = true :=
  ⟨rfl, rfl,
   (asset_groups_list_spec "x" (ItemsResponse.mk 200 [AGItem.mk "1" "n" "d"])
       (AssetGroupsState.mk "" [])).1.mpr (by decide)⟩

/-- C8 counterexample: a Create whose POST returns 200 with Id "123" but
whose immediately following Read returns 500 ends with an error, yet the
local state differs from the state at the start of the operation — the
local id has been set to "123" before the Read ran. -/
theorem create_interrupted_read_counterexample :
    (resourceAppScanApplicationCreate
        (AppState.mk "" "App1" "desc" "AG1" "" "Unspecified")
        (CreateResponse.mk 200 (some "123")) (ReadResponse.mk 500 [])).2 =
      some (AppError.readFailed "application" 500) ∧
    (resourceAppScanApplicationCreate
        (AppState.mk "" "App1" "desc" "AG1" "" "Unspecified")
        (CreateResponse.mk 200 (some "123")) (ReadResponse.mk 500 [])).1 ≠
      AppState.mk "" "App1" "desc" "AG1" "" "Unspecified" ∧
    (resourceAppScanApplicationCreate
        (AppState.mk "" "App1" "desc" "AG1" "" "Unspecified")
        (CreateResponse.mk 200 (some "123")) (ReadResponse.mk 500 [])).1.id =
      "123" := by
  refine ⟨rfl, ?_, rfl⟩
  decide

/-- C8 amended: Read, Update and Delete are all-or-nothing — whenever one
of them returns an error the local state is unchanged — and Create is
all-or-nothing up to the id assignment: any error before a non-empty Id is
extracted leaves the state unchanged, but once the POST has succeeded with
a non-empty Id the local id is set to it, and it remains set when the
immediately following Read fails. -/
theorem lifecycle_error_state_spec (s : AppState) (resp rresp : ReadResponse)
    (cresp : CreateResponse) (ustatus dstatus : Nat) :
    ((resourceAppScanApplicationRead resp s).2.isSome = true →
      (resourceAppScanApplicationRead resp s).1 = s) ∧
    ((resourceAppScanApplicationUpdate s ustatus rresp).2.isSome = true →
      (resourceAppScanApplicationUpdate s ustatus rresp).1 = s) ∧
    ((resourceAppScanApplicationDelete s dstatus).2.isSome = true →
      (resourceAppScanApplicationDelete s dstatus).1 = s) ∧
    ((cresp.status ≠ 200 ∧ cresp.status ≠ 201) ∨ cresp.idField = none ∨
        cresp.idField = some "" →
      (resourceAppScanApplicationCreate s cresp rresp).2.isSome = true ∧
      (resourceAppScanApplicationCreate s cresp rresp).1 = s) ∧
    (∀ i, cresp.idField = some i → i ≠ "" →
        (cresp.status = 200 ∨ cresp.status = 201) →
        (resourceAppScanApplicationCreate s cresp rresp).2.isSome = true →
      (resourceAppScanApplicationCreate s cresp rresp).1 = { s with id := i }) := by
  have hread : ∀ t : AppState, (resourceAppScanApplicationRead resp t).2.isSome = true →
      (resourceAppScanApplicationRead resp t).1 = t := by
    intro t
    by_cases h404 : resp.status = 404
    · simp [resourceAppScanApplicationRead, h404]
    · by_cases h200 : resp.status = 200
      · rcases hitems : resp.items with _ | ⟨a, rest⟩ <;>
          simp [resourceAppScanApplicationRead, h404, h200, hitems]
      · simp [resourceAppScanApplicationRead, h404, h200]
  have hread2 : ∀ t : AppState, (resourceAppScanApplicationRead rresp t).2.isSome = true →
      (resourceAppScanApplicationRead rresp t).1 = t := by
    intro t
    by_cases h404 : rresp.status = 404
    · simp [resourceAppScanApplicationRead, h404]
    · by_cases h200 : rresp.status = 200
      · rcases hitems : rresp.items with _ | ⟨a, rest⟩ <;>
          simp [resourceAppScanApplicationRead, h404, h200, hitems]
      · simp [resourceAppScanApplicationRead, h404, h200]
  refine ⟨hread s, ?_, ?_, ?_, ?_⟩
  · by_cases hu : ustatus = 200
    · rw [resourceAppScanApplicationUpdate, if_neg (by simp [hu])]
      exact hread2 s
    · simp [resourceAppScanApplicationUpdate, hu]
  · by_cases hd : dstatus ≠ 204 ∧ dstatus ≠ 200 <;>
      simp [resourceAppScanApplicationDelete, hd]
  · intro hbad
    rcases hbad with hst | hid | hid
    · simp [resourceAppScanApplicationCreate, hst.1, hst.2]
    · by_cases hok : cresp.status ≠ 201 ∧ cresp.status ≠ 200 <;>
        simp [resourceAppScanApplicationCreate, hok, hid]
    · by_cases hok : cresp.status ≠ 201 ∧ cresp.status ≠ 200 <;>
        simp [resourceAppScanApplicationCreate, hok, hid]
  · intro i hid hne hst
    have hok : ¬(cresp.status ≠ 201 ∧ cresp.status ≠ 200) := by
      rcases hst with h | h <;> simp [h]
    rw [resourceAppScanApplicationCreate, if_neg hok, hid]
    simp only [hne, if_neg hne]
    exact hread2 { s with id := i }

/-- C8 amended witness: at a concrete state, a failing Read (status 500)
returns an error and leaves the state unchanged. -/
theorem lifecycle_error_state_spec_witness :
    (resourceAppScanApplicationRead (ReadResponse.mk 500 [])
        (AppState.mk "123" "App1" "desc" "AG1" "" "Unspecified")).2.isSome = true ∧
    (resourceAppScanApplicationRead (ReadResponse.mk 500 [])
        (AppState.mk "123" "App1" "desc" "AG1" "" "Unspecified")).1 =
      AppState.mk "123" "App1" "desc" "AG1" "" "Unspecified" :=
  ⟨rfl,
   (lifecycle_error_state_spec (AppState.mk "123" "App1" "desc" "AG1" "" "Unspecified")
       (ReadResponse.mk 500 []) (ReadResponse.mk 200 [])
       (CreateResponse.mk 200 none) 200 200).1 rfl⟩

/-- C9: the DataSourcesMap built by Provider() holds exactly two entries,
the asset-groups list and the single asset-group lookup; no registered
data source is the business-unit lookup, although dataSourceBusinessUnit
is implemented in the repository. -/
theorem provider_data_sources_spec :
    providerDataSourcesMap.length = 2 ∧
    (providerDataSourcesMap.map Prod.fst).contains "appscan_asset_groups" = true ∧
    (providerDataSourcesMap.map Prod.fst).contains "appscan_asset_group" = true ∧
    providerDataSourcesMap.all
      (fun p => p.2 != DataSourceKind.businessUnitSingle) = true := by
  decide

end AppScan
